import Mathlib

/-!
Shallow embedding of the Heatmap repository (files `map.js` and
`websocket-server-example.js`): a Leaflet heat-overlay consumer fed over a
WebSocket, and a Node.js producer that simulates crowd intensity at the
Somnath temple and broadcasts weighted point sets.

JavaScript numbers are modelled as rationals extended with a NaN element
(`JSNum`); `Math.random()` results are supplied explicitly as a stream
`r : ℕ → ℚ` consumed in program order; JSON values are the inductive
`JsonVal`; a payload whose `JSON.parse` throws is represented as `none`.
-/

namespace Heatmap

/-- A JavaScript number: either NaN or an (exact) rational.  Infinities never
arise in the code paths modelled here, so they are omitted. -/
inductive JSNum where
  | nan : JSNum
  | num (q : ℚ) : JSNum
deriving DecidableEq

/-- `Math.min` on two numbers: NaN-propagating minimum. -/
def jsMin : JSNum → JSNum → JSNum
  | .nan, _ => .nan
  | _, .nan => .nan
  | .num a, .num b => .num (min a b)

/-- `Math.max` on two numbers: NaN-propagating maximum. -/
def jsMax : JSNum → JSNum → JSNum
  | .nan, _ => .nan
  | _, .nan => .nan
  | .num a, .num b => .num (max a b)

/-- Addition on JavaScript numbers (NaN-propagating). -/
def jsAdd : JSNum → JSNum → JSNum
  | .nan, _ => .nan
  | _, .nan => .nan
  | .num a, .num b => .num (a + b)

/-- Multiplication on JavaScript numbers (NaN-propagating). -/
def jsMul : JSNum → JSNum → JSNum
  | .nan, _ => .nan
  | _, .nan => .nan
  | .num a, .num b => .num (a * b)

/-- `Math.floor` (NaN-propagating). -/
def jsFloor : JSNum → JSNum
  | .nan => .nan
  | .num q => .num (Int.floor q : ℤ)

/-- The specification predicate "the stored intensity lies in [0,1]":
NaN is not in the interval. -/
def inUnitInterval : JSNum → Bool
  | .nan => false
  | .num q => decide (0 ≤ q ∧ q ≤ 1)

/-- A JSON value as produced by `JSON.parse` (objects keep their fields as an
association list; `JSON.parse` output never has duplicate keys, since a later
duplicate overwrites the earlier one during parsing). -/
inductive JsonVal where
  | null : JsonVal
  | bool (b : Bool) : JsonVal
  | num (q : ℚ) : JsonVal
  | str (s : String) : JsonVal
  | arr (elems : List JsonVal) : JsonVal
  | obj (fields : List (String × JsonVal)) : JsonVal

mutual

/-- Decidable equality of JSON values (the automatic derivation does not
support this nested inductive, so it is spelled out). -/
def JsonVal.decEq : (a b : JsonVal) → Decidable (a = b)
  | .null, .null => isTrue rfl
  | .null, .bool _ => isFalse nofun
  | .null, .num _ => isFalse nofun
  | .null, .str _ => isFalse nofun
  | .null, .arr _ => isFalse nofun
  | .null, .obj _ => isFalse nofun
  | .bool _, .null => isFalse nofun
  | .bool a, .bool b =>
    if h : a = b then isTrue (by rw [h])
    else isFalse (fun hh => h (JsonVal.bool.inj hh))
  | .bool _, .num _ => isFalse nofun
  | .bool _, .str _ => isFalse nofun
  | .bool _, .arr _ => isFalse nofun
  | .bool _, .obj _ => isFalse nofun
  | .num _, .null => isFalse nofun
  | .num _, .bool _ => isFalse nofun
  | .num a, .num b =>
    if h : a = b then isTrue (by rw [h])
    else isFalse (fun hh => h (JsonVal.num.inj hh))
  | .num _, .str _ => isFalse nofun
  | .num _, .arr _ => isFalse nofun
  | .num _, .obj _ => isFalse nofun
  | .str _, .null => isFalse nofun
  | .str _, .bool _ => isFalse nofun
  | .str _, .num _ => isFalse nofun
  | .str a, .str b =>
    if h : a = b then isTrue (by rw [h])
    else isFalse (fun hh => h (JsonVal.str.inj hh))
  | .str _, .arr _ => isFalse nofun
  | .str _, .obj _ => isFalse nofun
  | .arr _, .null => isFalse nofun
  | .arr _, .bool _ => isFalse nofun
  | .arr _, .num _ => isFalse nofun
  | .arr _, .str _ => isFalse nofun
  | .arr as, .arr bs =>
    match JsonVal.decEqList as bs with
    | isTrue h => isTrue (by rw [h])
    | isFalse h => isFalse (fun hh => h (JsonVal.arr.inj hh))
  | .arr _, .obj _ => isFalse nofun
  | .obj _, .null => isFalse nofun
  | .obj _, .bool _ => isFalse nofun
  | .obj _, .num _ => isFalse nofun
  | .obj _, .str _ => isFalse nofun
  | .obj _, .arr _ => isFalse nofun
  | .obj fs, .obj gs =>
    match JsonVal.decEqFields fs gs with
    | isTrue h => isTrue (by rw [h])
    | isFalse h => isFalse (fun hh => h (JsonVal.obj.inj hh))

/-- Decidable equality of JSON value lists. -/
def JsonVal.decEqList : (as bs : List JsonVal) → Decidable (as = bs)
  | [], [] => isTrue rfl
  | [], _ :: _ => isFalse nofun
  | _ :: _, [] => isFalse nofun
  | a :: as, b :: bs =>
    match JsonVal.decEq a b with
    | isFalse h => isFalse (by intro hh; injection hh; exact h (by assumption))
    | isTrue h1 =>
      match JsonVal.decEqList as bs with
      | isTrue h2 => isTrue (by rw [h1, h2])
      | isFalse h => isFalse (by intro hh; injection hh; exact h (by assumption))

/-- Decidable equality of JSON object field lists. -/
def JsonVal.decEqFields : (fs gs : List (String × JsonVal)) → Decidable (fs = gs)
  | [], [] => isTrue rfl
  | [], _ :: _ => isFalse nofun
  | _ :: _, [] => isFalse nofun
  | (k, v) :: fs, (k', v') :: gs =>
    if hk : k = k' then
      match JsonVal.decEq v v' with
      | isFalse h =>
        isFalse (by intro hh; injection hh with h1 h2; exact h (congrArg Prod.snd h1))
      | isTrue hv =>
        match JsonVal.decEqFields fs gs with
        | isTrue h2 => isTrue (by rw [hk, hv, h2])
        | isFalse h => isFalse (by intro hh; injection hh; exact h (by assumption))
    else isFalse (by intro hh; injection hh with h1 h2; exact hk (congrArg Prod.fst h1))

end

instance : DecidableEq JsonVal := JsonVal.decEq

/-- JavaScript property access `v.k` for the values `JSON.parse` can return:
`none` is `undefined`.  (In JavaScript, access on `null` throws instead of
yielding `undefined`; in the two handlers modelled here that exception is
caught by the surrounding `try`/`catch`, whose net effect — no state change,
no output — coincides with falling through every branch, so `none` is an
accurate model there as well.) -/
def getField : JsonVal → String → Option JsonVal
  | .obj fields, k => (fields.find? (fun kv => kv.1 = k)).map (fun kv => kv.2)
  | _, _ => none

/-- JavaScript truthiness of a field-access result (`undefined`, `null`,
`false`, `0` and `""` are falsy; NaN cannot occur in parsed JSON). -/
def truthy : Option JsonVal → Bool
  | none => false
  | some .null => false
  | some (.bool b) => b
  | some (.num q) => decide (q ≠ 0)
  | some (.str s) => decide (s ≠ "")
  | some (.arr _) => true
  | some (.obj _) => true

/-- `Array.isArray`. -/
def isArray : JsonVal → Bool
  | .arr _ => true
  | _ => false

/-- Serialization of a number by `JSON.stringify`: NaN serializes as `null`. -/
def jsnumToJson : JSNum → JsonVal
  | .nan => .null
  | .num q => .num q

/-! ## Consumer (`map.js`): live overlay sync -/

/-- The consumer's connection state (spec §3): owned by the consumer,
set by the transport's open/close events. -/
inductive ConnState where
  | connecting : ConnState
  | opened : ConnState
  | closed : ConnState
deriving DecidableEq

/-- Consumer-side state: whether `window.heatmapLayer` has been created,
the heat layer's current point list (the argument of the last `setLatLngs`),
the connection state, and the delays (ms) of the reconnect timeouts scheduled
so far by `setTimeout` in `ws.onclose`. -/
structure ConsumerState where
  hasLayer : Bool
  overlay : List JsonVal
  conn : ConnState
  scheduledReconnects : List ℕ
deriving DecidableEq

/-- `fallbackStaticData` from `map.js`: the fixed static point list shown
when no live connection is available. -/
def fallbackStaticData : List JsonVal :=
  [ .arr [.num 23.0225, .num 72.5714, .num 1.0],
    .arr [.num 22.3072, .num 70.8022, .num 0.8],
    .arr [.num 21.1702, .num 72.8311, .num 0.9],
    .arr [.num 23.1815, .num 69.6692, .num 0.7],
    .arr [.num 22.4707, .num 70.0583, .num 0.8],
    .arr [.num 23.2156, .num 72.6369, .num 0.9],
    .arr [.num 22.3039, .num 70.8022, .num 0.7],
    .arr [.num 21.7645, .num 72.1519, .num 0.8],
    .arr [.num 23.8481, .num 72.1293, .num 0.7],
    .arr [.num 24.5854, .num 72.7023, .num 0.6],
    .arr [.num 22.3094, .num 73.1812, .num 0.7],
    .arr [.num 22.6015, .num 72.9697, .num 0.8],
    .arr [.num 23.1667, .num 70.1333, .num 0.6],
    .arr [.num 22.3, .num 73.2, .num 0.7],
    .arr [.num 23.0333, .num 72.6167, .num 0.9],
    .arr [.num 22.7, .num 72.8667, .num 0.7],
    .arr [.num 21.5167, .num 70.45, .num 0.6],
    .arr [.num 22.5667, .num 72.9167, .num 0.7],
    .arr [.num 23.0833, .num 72.6333, .num 0.8],
    .arr [.num 22.45, .num 72.8, .num 0.7],
    .arr [.num 23.0225, .num 72.5714, .num 1.0],
    .arr [.num 23.0325, .num 72.5814, .num 0.9],
    .arr [.num 23.0125, .num 72.5614, .num 0.9],
    .arr [.num 23.0425, .num 72.5914, .num 0.8],
    .arr [.num 23.0025, .num 72.5514, .num 0.8],
    .arr [.num 22.3072, .num 70.8022, .num 0.8],
    .arr [.num 21.1702, .num 72.8311, .num 0.9],
    .arr [.num 21.1802, .num 72.8411, .num 0.8],
    .arr [.num 21.1602, .num 72.8211, .num 0.8],
    .arr [.num 21.1902, .num 72.8511, .num 0.7],
    .arr [.num 21.1502, .num 72.8111, .num 0.7],
    .arr [.num 20.8883, .num 70.4011, .num 0.9],
    .arr [.num 20.8983, .num 70.4111, .num 0.8],
    .arr [.num 20.8783, .num 70.3911, .num 0.8] ]

/-- `updateHeatmapData(data)`: replace the heat layer's points by `data`
if the layer exists and `data` is an array; otherwise do nothing. -/
def updateHeatmapData (st : ConsumerState) (data : JsonVal) : ConsumerState :=
  if st.hasLayer then
    match data with
    | .arr pts => { st with overlay := pts }
    | _ => st
  else st

/-- `useFallbackData()`: replace the heat layer's points by the fixed
fallback list, if the layer exists. -/
def useFallbackData (st : ConsumerState) : ConsumerState :=
  if st.hasLayer then { st with overlay := fallbackStaticData } else st

/-- `ws.onmessage`: the argument is the result of `JSON.parse(event.data)`,
`none` when parsing threw (the `catch` branch, which only logs).  On a parsed
value, the source's `if`/`else if` chain classifies the message and hands the
extracted payload to `updateHeatmapData`; an unrecognized shape is only
logged (`console.warn`). -/
def consumerOnMessage (st : ConsumerState) (received : Option JsonVal) : ConsumerState :=
  match received with
  | none => st
  | some message =>
    if getField message "type" = some (.str "heatmap_update") ∧
        truthy (getField message "data") then
      updateHeatmapData st ((getField message "data").getD .null)
    else if getField message "type" = some (.str "full_update") ∧
        truthy (getField message "data") then
      updateHeatmapData st ((getField message "data").getD .null)
    else if isArray message then
      updateHeatmapData st message
    else if truthy (getField message "data") ∧
        isArray ((getField message "data").getD .null) then
      updateHeatmapData st ((getField message "data").getD .null)
    else st

/-- `ws.onerror`: log and show the fallback data (the connection is expected
to close shortly after; no reconnect is scheduled here). -/
def consumerOnError (st : ConsumerState) : ConsumerState :=
  useFallbackData st

/-- `ws.onclose`: the connection is now closed; show the fallback data and
schedule one reconnect timeout with a fixed 5000 ms delay. -/
def consumerOnClose (st : ConsumerState) : ConsumerState :=
  let st1 := useFallbackData { st with conn := ConnState.closed }
  { st1 with scheduledReconnects := st1.scheduledReconnects ++ [5000] }

/-- Body of the timeout scheduled by `ws.onclose`: it calls
`connectWebSocket()` again if and only if `window.wsReconnectDisabled` is not
set — the disable flag is checked at the top of the scheduled retry. -/
def reconnectRetry (wsReconnectDisabled : Bool) : Bool :=
  !wsReconnectDisabled

/-- The four recognized inbound message shapes (spec §4.1). -/
inductive MsgShape where
  | fullUpdate : MsgShape
  | heatmapUpdate : MsgShape
  | bareArray : MsgShape
  | nestedData : MsgShape
deriving DecidableEq

/-- Modelled from the spec: "classify into {full_update, heatmap_update, bare
array, nested-data} shapes in that precedence order", returning the first
matching shape together with the extracted payload, or `none` (log and
discard) when no shape matches. -/
def specClassify (message : JsonVal) : Option (MsgShape × JsonVal) :=
  if getField message "type" = some (.str "full_update") ∧
      truthy (getField message "data") then
    some (MsgShape.fullUpdate, (getField message "data").getD .null)
  else if getField message "type" = some (.str "heatmap_update") ∧
      truthy (getField message "data") then
    some (MsgShape.heatmapUpdate, (getField message "data").getD .null)
  else if isArray message then
    some (MsgShape.bareArray, message)
  else if truthy (getField message "data") ∧
      isArray ((getField message "data").getD .null) then
    some (MsgShape.nestedData, (getField message "data").getD .null)
  else none

/-! ## Producer (`websocket-server-example.js`) -/

/-- A latitude/longitude pair. -/
structure Coordinates where
  lat : ℚ
  lng : ℚ
deriving DecidableEq

/-- Somnath Temple coordinates. -/
def SOMNATH_TEMPLE : Coordinates := ⟨20.8883, 70.4011⟩

/-- A weighted heat point `[lat, lng, intensity]`. -/
structure HeatPoint where
  lat : ℚ
  lng : ℚ
  intensity : JSNum
deriving DecidableEq

/-- `baseHeatmapData`: the fixed background points for Gujarat. -/
def baseHeatmapData : List HeatPoint :=
  [ ⟨23.0225, 72.5714, .num 0.7⟩,
    ⟨22.3072, 70.8022, .num 0.6⟩,
    ⟨21.1702, 72.8311, .num 0.7⟩,
    ⟨23.1815, 69.6692, .num 0.5⟩,
    ⟨22.4707, 70.0583, .num 0.6⟩,
    ⟨23.2156, 72.6369, .num 0.7⟩,
    ⟨21.7645, 72.1519, .num 0.6⟩,
    ⟨23.0333, 72.6167, .num 0.7⟩,
    ⟨22.7, 72.8667, .num 0.5⟩ ]

/-- Producer-side mutable globals: the Somnath crowd intensity, the
`crowdGatheringActive` flag (a raw JavaScript value, since
`toggle_gathering` stores the message's `active` field unvalidated; `none`
is `undefined`), and the tick counter `updateCount`. -/
structure ProducerState where
  somnathCrowdIntensity : JSNum
  crowdGatheringActive : Option JsonVal
  updateCount : ℕ
deriving DecidableEq

/-- The producer's initial globals: intensity 0.5, gathering active, 0 ticks. -/
def initialProducerState : ProducerState :=
  { somnathCrowdIntensity := .num 0.5,
    crowdGatheringActive := some (.bool true),
    updateCount := 0 }

/-- The number of loop iterations in `generateSomnathHeatPoints`: the source
computes `numPoints = Math.floor(intensity * 15) + 5` and pushes
`numPoints - 1` satellite points after the centre.  A NaN intensity gives
zero iterations (`0 < NaN - 1` is false), and so does a nonpositive bound. -/
def numSatellites : JSNum → ℕ
  | .nan => 0
  | .num q => (Int.floor (q * 15) + 5 - 1).toNat

/-- One satellite point of the cluster; `k` is the stream index of the first
of the three `Math.random()` draws of this loop iteration (latitude offset,
longitude offset, point intensity). -/
def satellitePoint (r : ℕ → ℚ) (intensity : JSNum) (k : ℕ) : HeatPoint :=
  { lat := SOMNATH_TEMPLE.lat + (r k - 0.5) * 0.01,
    lng := SOMNATH_TEMPLE.lng + (r (k + 1) - 0.5) * 0.01,
    intensity := jsMin (.num 1.0) (jsMul intensity (.num (0.7 + r (k + 2) * 0.3))) }

/-- `generateSomnathHeatPoints(intensity)`: the centre point carrying the
current intensity exactly, followed by the satellite points pushed by the
loop.  `r` is the `Math.random()` stream and `base` the index of the first
random drawn by this call. -/
def generateSomnathHeatPoints (r : ℕ → ℚ) (base : ℕ) (intensity : JSNum) : List HeatPoint :=
  (List.range (numSatellites intensity)).foldl
    (fun points i => points ++ [satellitePoint r intensity (base + 3 * i)])
    [⟨SOMNATH_TEMPLE.lat, SOMNATH_TEMPLE.lng, intensity⟩]

/-- `getCurrentHeatmapData()`: base data followed by the Somnath cluster
for the given current intensity. -/
def getCurrentHeatmapData (r : ℕ → ℚ) (base : ℕ) (intensity : JSNum) : List HeatPoint :=
  baseHeatmapData ++ generateSomnathHeatPoints r base intensity

/-- The value of a digit string (`none` if a non-digit appears). -/
def digitsVal (cs : List Char) : Option ℕ :=
  cs.foldl
    (fun acc c =>
      match acc with
      | none => none
      | some v => if c.isDigit then some (v * 10 + (c.toNat - 48)) else none)
    (some 0)

/-- JavaScript string-to-number coercion for plain decimal forms: optional
sign, integer digits and/or a fraction part; a string that is empty after
trimming converts to 0.  Exponent, hexadecimal and Infinity forms never occur
in this program's messages and are conservatively mapped to NaN. -/
def strToNum (s : String) : JSNum :=
  match s.trim.toList with
  | [] => .num 0
  | cs =>
    let signed : ℚ × List Char :=
      match cs with
      | '-' :: rest => (-1, rest)
      | '+' :: rest => (1, rest)
      | _ => (1, cs)
    let ipSplit := signed.2.span Char.isDigit
    match ipSplit.2 with
    | [] =>
      match ipSplit.1, digitsVal ipSplit.1 with
      | _ :: _, some v => .num (signed.1 * v)
      | _, _ => .nan
    | '.' :: afterDot =>
      let fpSplit := afterDot.span Char.isDigit
      if fpSplit.2 = [] ∧ ¬(ipSplit.1 = [] ∧ fpSplit.1 = []) then
        match digitsVal ipSplit.1, digitsVal fpSplit.1 with
        | some a, some b =>
          .num (signed.1 * ((a : ℚ) + (b : ℚ) / (10 : ℚ) ^ fpSplit.1.length))
        | _, _ => .nan
      else .nan
    | _ => .nan

/-- JavaScript `ToNumber` of a field-access result, as `Math.min` applies it
to `data.intensity`: `undefined` (a missing field) is NaN, `null` is 0,
booleans are 0/1, strings parse as decimal literals.  Arrays and objects
coerce through their JS string form; that path never yields a number in this
program's messages and is approximated as NaN. -/
def toNumber : Option JsonVal → JSNum
  | none => .nan
  | some .null => .num 0
  | some (.bool b) => .num (if b then 1 else 0)
  | some (.num q) => .num q
  | some (.str s) => strToNum s
  | some (.arr _) => .nan
  | some (.obj _) => .nan

/-- Zero-padding of a digit string to a fixed width. -/
def padZeros (width : ℕ) (s : String) : String :=
  String.mk (List.replicate (width - s.length) '0') ++ s

/-- `Number.prototype.toFixed(digits)`: the decimal string with exactly
`digits` fractional digits, rounding the magnitude half-up (for the
nonnegative numbers that reach `toFixed` in this program this agrees with
JavaScript); NaN prints as "NaN". -/
def toFixed (digits : ℕ) : JSNum → String
  | .nan => "NaN"
  | .num q =>
    let scaled : ℤ := Int.floor (|q| * (10 : ℚ) ^ digits + 1 / 2)
    let ip : ℕ := scaled.toNat / 10 ^ digits
    let fp : ℕ := scaled.toNat % 10 ^ digits
    (if q < 0 then "-" else "") ++ toString ip ++
      (if digits = 0 then "" else "." ++ padZeros digits (toString fp))

/-- Serialization of a point list as in `JSON.stringify` of the `data`
field. -/
def pointsToJson (points : List HeatPoint) : List JsonVal :=
  points.map (fun p => JsonVal.arr [.num p.lat, .num p.lng, jsnumToJson p.intensity])

/-- The `full_update` object sent in reply to a valid `request_data`
message. -/
def fullUpdateReply (r : ℕ → ℚ) (st : ProducerState) : JsonVal :=
  .obj [("type", .str "full_update"),
        ("data", .arr (pointsToJson (getCurrentHeatmapData r 0 st.somnathCrowdIntensity))),
        ("message", .str ("Somnath Temple crowd intensity: " ++
          toFixed 2 st.somnathCrowdIntensity))]

/-- The producer's `ws.on("message")` handler.  The argument is the result of
`JSON.parse`, `none` when parsing threw (the `catch` branch, which only
logs).  Three independent `if`s handle `request_data` (reply with a
`full_update` when the region is exactly "gujarat"), `set_crowd_intensity`
(store `Math.max(0, Math.min(1.0, data.intensity))` of the raw field) and
`toggle_gathering` (store the raw `active` field).  Returns the new state
and the replies sent on this socket. -/
def producerOnMessage (r : ℕ → ℚ) (st : ProducerState) (received : Option JsonVal) :
    ProducerState × List JsonVal :=
  match received with
  | none => (st, [])
  | some data =>
    let sent : List JsonVal :=
      if getField data "type" = some (.str "request_data") ∧
          getField data "region" = some (.str "gujarat") then
        [fullUpdateReply r st]
      else []
    let st1 :=
      if getField data "type" = some (.str "set_crowd_intensity") then
        let clamped := jsMax (.num 0) (jsMin (.num 1.0) (toNumber (getField data "intensity")))
        { st with somnathCrowdIntensity := clamped }
      else st
    let st2 :=
      if getField data "type" = some (.str "toggle_gathering") then
        { st1 with crowdGatheringActive := getField data "active" }
      else st1
    (st2, sent)

/-- A connected socket as the broadcast loop sees it: an identifier and its
`readyState`. -/
structure Client where
  id : ℕ
  readyState : ℕ
deriving DecidableEq

/-- `WebSocket.OPEN`. -/
def WS_OPEN : ℕ := 1

/-- The crowd-gathering part of the 3-second `setInterval` tick: when
`crowdGatheringActive` is truthy, advance `updateCount`, move the intensity
toward 1.0 (`min(1.0, 0.5 + (updateCount/100)*0.5)`) with a small random
variation (`(r 0 − 0.5) * 0.05`), flooring at 0.3, and with probability 10%
(`r 1 < 0.1`) apply a +0.2 spike clamped at 1.0. -/
def tickIntensity (r : ℕ → ℚ) (st : ProducerState) : ProducerState :=
  if truthy st.crowdGatheringActive then
    let updateCount' := st.updateCount + 1
    let targetIntensity : ℚ := min 1.0 (0.5 + ((updateCount' : ℚ) / 100) * 0.5)
    let variation : ℚ := (r 0 - 0.5) * 0.05
    let intensity1 : ℚ := max 0.3 (min 1.0 (targetIntensity + variation))
    let intensity2 : ℚ := if r 1 < 0.1 then min 1.0 (intensity1 + 0.2) else intensity1
    { st with updateCount := updateCount', somnathCrowdIntensity := .num intensity2 }
  else st

/-- Whether a point lies in the Somnath box that the tick's jitter skips. -/
def isSomnathArea (p : HeatPoint) : Bool :=
  decide (|p.lat - SOMNATH_TEMPLE.lat| < 0.02 ∧ |p.lng - SOMNATH_TEMPLE.lng| < 0.02)

/-- The tick's `currentData.map(...)`: add `(r k − 0.5) * 0.1` to every
non-Somnath point's intensity, clamped to `[0.1, 1.0]`; Somnath-area points
pass through unchanged and draw no random.  `k` is the next stream index. -/
def jitterPoints (r : ℕ → ℚ) : ℕ → List HeatPoint → List HeatPoint
  | _, [] => []
  | k, p :: rest =>
    if isSomnathArea p then p :: jitterPoints r k rest
    else
      let newIntensity := jsMax (.num 0.1) (jsMin (.num 1.0) (jsAdd p.intensity (.num ((r k - 0.5) * 0.1))))
      { p with intensity := newIntensity } :: jitterPoints r (k + 1) rest

/-- The JSON object broadcast on each tick. -/
def heatmapUpdateMsg (data : List HeatPoint) (timestamp : String) (intensity : JSNum) : JsonVal :=
  .obj [("type", .str "heatmap_update"),
        ("data", .arr (pointsToJson data)),
        ("timestamp", .str timestamp),
        ("somnathIntensity", .str (toFixed 3 intensity)),
        ("crowdCount", jsnumToJson (jsFloor (jsMul intensity (.num 1000))))]

/-- The JSON object assembled by one tick firing from pre-tick state `st`:
regenerate the point set for the post-update intensity (`tickIntensity`
consumed `r 0` and `r 1` when the gathering simulation ran, so the generator
starts at stream index 2 in that case and 0 otherwise), jitter the
non-Somnath points, and wrap everything as a `heatmap_update`. -/
def tickMessage (r : ℕ → ℚ) (timestamp : String) (st : ProducerState) : JsonVal :=
  let st' := tickIntensity r st
  let base := if truthy st.crowdGatheringActive then 2 else 0
  let currentData := getCurrentHeatmapData r base st'.somnathCrowdIntensity
  let updatedData :=
    jitterPoints r (base + 3 * numSatellites st'.somnathCrowdIntensity) currentData
  heatmapUpdateMsg updatedData timestamp st'.somnathCrowdIntensity

/-- One firing of the producer's 3-second `setInterval`: if any client is
connected, update the intensity and send the tick's `heatmap_update` object
to every client whose `readyState` is `WebSocket.OPEN`.  `timestamp` stands
for `new Date().toISOString()`.  Returns the new state and the list of
`(client id, message)` sends. -/
def producerTick (r : ℕ → ℚ) (timestamp : String) (clients : List Client)
    (st : ProducerState) : ProducerState × List (ℕ × JsonVal) :=
  if 0 < clients.length then
    (tickIntensity r st,
     (clients.filter (fun c => c.readyState == WS_OPEN)).map
       (fun c => (c.id, tickMessage r timestamp st)))
  else (st, [])

/-- `n` consecutive tick firings; firing `i` draws from the random stream
`rs i`, carries timestamp `ts i` and sees the client list `cls i`. -/
def runTicks (rs : ℕ → ℕ → ℚ) (ts : ℕ → String) (cls : ℕ → List Client) :
    ℕ → ProducerState → ProducerState
  | 0, st => st
  | n + 1, st => runTicks rs ts cls n (producerTick (rs n) (ts n) (cls n) st).1

mutual

/-- Whether `x` occurs as a (sub)value of the given JSON value. -/
def jsonMentions (x : JsonVal) : JsonVal → Bool
  | .arr es => decide (JsonVal.arr es = x) || jsonMentionsList x es
  | .obj fs => decide (JsonVal.obj fs = x) || jsonMentionsFields x fs
  | v => decide (v = x)

/-- `jsonMentions` over the elements of an array. -/
def jsonMentionsList (x : JsonVal) : List JsonVal → Bool
  | [] => false
  | e :: es => jsonMentions x e || jsonMentionsList x es

/-- `jsonMentions` over the values of an object. -/
def jsonMentionsFields (x : JsonVal) : List (String × JsonVal) → Bool
  | [] => false
  | kv :: fs => jsonMentions x kv.2 || jsonMentionsFields x fs

end

/-! ## Helper lemmas -/

unseal Rat.ofScientific Rat.mul Rat.inv Rat.add Rat.sub

/-- Folding push-style appends over a list is the same as appending the map. -/
theorem foldl_push_eq_map {α β : Type} (f : α → β) :
    ∀ (xs : List α) (acc : List β),
      xs.foldl (fun ps i => ps ++ [f i]) acc = acc ++ xs.map f := by
  intro xs
  induction xs with
  | nil => intro acc; simp
  | cons x xs ih => intro acc; simp [ih]

/-- Closed form of the cluster generator: the centre point followed by the
satellite points in loop order. -/
theorem generateSomnathHeatPoints_eq (r : ℕ → ℚ) (base : ℕ) (intensity : JSNum) :
    generateSomnathHeatPoints r base intensity =
      ⟨SOMNATH_TEMPLE.lat, SOMNATH_TEMPLE.lng, intensity⟩ ::
        (List.range (numSatellites intensity)).map
          (fun i => satellitePoint r intensity (base + 3 * i)) := by
  unfold generateSomnathHeatPoints
  rw [foldl_push_eq_map]
  rfl

/-- The state component of a tick firing. -/
theorem producerTick_fst (r : ℕ → ℚ) (timestamp : String) (clients : List Client)
    (st : ProducerState) :
    (producerTick r timestamp clients st).1 =
      if 0 < clients.length then tickIntensity r st else st := by
  unfold producerTick
  split <;> rfl

/-- `tickIntensity` never changes the gathering flag. -/
theorem tickIntensity_flag (r : ℕ → ℚ) (st : ProducerState) :
    (tickIntensity r st).crowdGatheringActive = st.crowdGatheringActive := by
  unfold tickIntensity
  split <;> rfl

/-- With the gathering flag falsy, `tickIntensity` is the identity. -/
theorem tickIntensity_inactive (r : ℕ → ℚ) (st : ProducerState)
    (h : truthy st.crowdGatheringActive = false) :
    tickIntensity r st = st := by
  unfold tickIntensity
  rw [h]
  simp

/-- The intensity stored by an active tick is the clamp of the perturbed
target, possibly spiked; it always lies in `[0.3, 1]` ⊆ `[0, 1]`. -/
theorem clampedVariation_bounds (x : ℚ) :
    0 ≤ max 0.3 (min 1.0 x) ∧ max 0.3 (min 1.0 x) ≤ 1 := by
  constructor
  · exact le_trans (by norm_num) (le_max_left _ _)
  · exact max_le (by norm_num) (le_trans (min_le_left _ _) (by norm_num))

/-- The +0.2 spike clamped at 1.0 keeps a value of `[0, 1]` in `[0, 1]`. -/
theorem spike_bounds (s : ℚ) (h0 : 0 ≤ s) :
    0 ≤ min 1.0 (s + 0.2) ∧ min 1.0 (s + 0.2) ≤ 1 := by
  constructor
  · exact le_min (by norm_num) (by linarith)
  · exact le_trans (min_le_left _ _) (by norm_num)

/-- A tick keeps the stored intensity inside `[0, 1]`. -/
theorem tickIntensity_inUnit (r : ℕ → ℚ) (st : ProducerState)
    (h : inUnitInterval st.somnathCrowdIntensity = true) :
    inUnitInterval (tickIntensity r st).somnathCrowdIntensity = true := by
  unfold tickIntensity
  split
  · simp only [inUnitInterval, decide_eq_true_eq]
    split
    · exact spike_bounds _ (clampedVariation_bounds _).1
    · exact clampedVariation_bounds _
  · exact h

/-! ## Claims -/

/-- C1: every received message that parses as JSON and matches a valid
`full_update` or `heatmap_update` shape (an object whose `type` field is the
matching tag and whose `data` field is an array) makes the consumer replace
the overlay point set by exactly the message's `data` field — a single full
assignment, with no merge with the prior overlay contents (the conclusion
holds for every prior `st.overlay`).  The `hasLayer` hypothesis reflects
that `connectWebSocket` only runs after `window.heatmapLayer` is created. -/
theorem C1_full_replacement (st : ConsumerState) (m : JsonVal) (l : List JsonVal)
    (tag : String) (hL : st.hasLayer = true)
    (htag : tag = "heatmap_update" ∨ tag = "full_update")
    (hty : getField m "type" = some (.str tag))
    (hdata : getField m "data" = some (.arr l)) :
    (consumerOnMessage st (some m)).overlay = l := by
  rcases htag with h | h <;> subst h <;>
    simp [consumerOnMessage, hty, hdata, truthy, updateHeatmapData, hL]

/-- Witness for C1 at a concrete state and message. -/
theorem C1_full_replacement_witness :
    (consumerOnMessage ⟨true, [.num 9], ConnState.opened, []⟩
        (some (.obj [("type", .str "full_update"),
                     ("data", .arr [.num 1, .num 2])]))).overlay
      = [.num 1, .num 2] :=
  C1_full_replacement _ _ _ "full_update" rfl (Or.inr rfl) rfl rfl

/-- C3: on every close event the consumer replaces the overlay point set by
the fixed fallback set and schedules exactly one reconnect timeout with the
fixed 5-second (5000 ms) delay; the scheduled retry attempts the connection
if and only if the disable flag (`window.wsReconnectDisabled`) is unset —
the flag is checked at the top of the retry body, so a caller who set it
suppresses the attempt. -/
theorem C3_close_fallback_and_reconnect (st : ConsumerState) (hL : st.hasLayer = true) :
    (consumerOnClose st).overlay = fallbackStaticData ∧
    (consumerOnClose st).conn = ConnState.closed ∧
    (consumerOnClose st).scheduledReconnects = st.scheduledReconnects ++ [5000] ∧
    reconnectRetry false = true ∧
    reconnectRetry true = false := by
  refine ⟨?_, ?_, ?_, rfl, rfl⟩ <;> simp [consumerOnClose, useFallbackData, hL]

/-- Witness for C3 at a concrete state. -/
theorem C3_close_fallback_and_reconnect_witness :
    (consumerOnClose ⟨true, [.num 7], ConnState.opened, []⟩).overlay = fallbackStaticData ∧
    (consumerOnClose ⟨true, [.num 7], ConnState.opened, []⟩).conn = ConnState.closed ∧
    (consumerOnClose ⟨true, [.num 7], ConnState.opened, []⟩).scheduledReconnects
      = [] ++ [5000] ∧
    reconnectRetry false = true ∧
    reconnectRetry true = false :=
  C3_close_fallback_and_reconnect ⟨true, [.num 7], ConnState.opened, []⟩ rfl

/-- C4: the consumer's message handler is exactly "classify into the four
shapes full_update, heatmap_update, bare array, nested-data — in that
precedence order — and hand the first match's extracted payload to
`updateHeatmapData`; log and discard a message matching none".
(`specClassify` tests the shapes in the spec's stated order; the source
tests `heatmap_update` before `full_update`, but the two shapes are
mutually exclusive, so the functions coincide on every message.) -/
theorem C4_shape_classification (st : ConsumerState) (m : JsonVal) :
    consumerOnMessage st (some m) =
      (match specClassify m with
       | some shapePayload => updateHeatmapData st shapePayload.2
       | none => st) := by
  by_cases hB : getField m "type" = some (JsonVal.str "heatmap_update") ∧
      truthy (getField m "data") = true
  · have hB1 := hB.1
    have hB2 := hB.2
    simp [consumerOnMessage, specClassify, hB1, hB2]
  · by_cases hA : getField m "type" = some (JsonVal.str "full_update") ∧
        truthy (getField m "data") = true
    · have hA1 := hA.1
      have hA2 := hA.2
      simp [consumerOnMessage, specClassify, hA1, hA2]
    · by_cases hArr : isArray m = true
      · simp [consumerOnMessage, specClassify, hA, hB, hArr]
      · by_cases hN : truthy (getField m "data") = true ∧
            isArray ((getField m "data").getD JsonVal.null) = true
        · have hA' : getField m "type" ≠ some (JsonVal.str "full_update") := by
            intro h
            exact hA ⟨h, hN.1⟩
          have hB' : getField m "type" ≠ some (JsonVal.str "heatmap_update") := by
            intro h
            exact hB ⟨h, hN.1⟩
          simp [consumerOnMessage, specClassify, hA', hB', hArr, hN]
        · simp [consumerOnMessage, specClassify, hA, hB, hArr, hN]

/-- C6: a received payload that fails JSON parsing (the `catch` branch of
`ws.onmessage`, which only logs) leaves the consumer state — overlay point
set, connection state and scheduled reconnects — exactly unchanged: no
fallback is shown and no close is triggered by the parse failure itself. -/
theorem C6_parse_failure_noop (st : ConsumerState) :
    consumerOnMessage st none = st := rfl

/-- C2: a producer tick (spike included) keeps the stored intensity in
`[0, 1]`, and a manual `set_crowd_intensity` override with a numeric
`intensity` value of any magnitude stores its clamp into `[0, 1]`; in
particular intensity 2.5 stores exactly 1.0 and intensity −3 stores exactly
0.0.  (An active tick establishes the bound from any prior state; an idle or
viewerless tick does not touch the intensity, so the bound is preserved.) -/
theorem C2_intensity_clamped :
    (∀ (r : ℕ → ℚ) (timestamp : String) (clients : List Client) (st : ProducerState),
        inUnitInterval st.somnathCrowdIntensity = true →
        inUnitInterval (producerTick r timestamp clients st).1.somnathCrowdIntensity = true) ∧
    (∀ (r : ℕ → ℚ) (st : ProducerState) (m : JsonVal) (q : ℚ),
        getField m "type" = some (.str "set_crowd_intensity") →
        getField m "intensity" = some (.num q) →
        inUnitInterval (producerOnMessage r st (some m)).1.somnathCrowdIntensity = true) ∧
    (producerOnMessage (fun _ => 0) initialProducerState
        (some (.obj [("type", .str "set_crowd_intensity"),
                     ("intensity", .num 2.5)]))).1.somnathCrowdIntensity = .num 1.0 ∧
    (producerOnMessage (fun _ => 0) initialProducerState
        (some (.obj [("type", .str "set_crowd_intensity"),
                     ("intensity", .num (-3))]))).1.somnathCrowdIntensity = .num 0 := by
  refine ⟨?_, ?_, by decide, by decide⟩
  · intro r timestamp clients st h
    rw [producerTick_fst]
    split
    · exact tickIntensity_inUnit r st h
    · exact h
  · intro r st m q hty hint
    simp only [producerOnMessage, hty, hint]
    norm_num
    split <;>
      · simp only [toNumber, jsMin, jsMax, inUnitInterval, decide_eq_true_eq]
        exact ⟨le_max_left _ _,
          max_le (by norm_num) (le_trans (min_le_left _ _) (by norm_num))⟩

/-- Witness for C2 at concrete inputs for both universally quantified
parts. -/
theorem C2_intensity_clamped_witness :
    inUnitInterval (producerTick (fun _ => 0) "t" [⟨0, 1⟩]
        initialProducerState).1.somnathCrowdIntensity = true ∧
    inUnitInterval (producerOnMessage (fun _ => 0) initialProducerState
        (some (.obj [("type", .str "set_crowd_intensity"),
                     ("intensity", .num 2.5)]))).1.somnathCrowdIntensity = true :=
  ⟨C2_intensity_clamped.1 (fun _ => 0) "t" [⟨0, 1⟩] initialProducerState (by decide),
   C2_intensity_clamped.2.1 (fun _ => 0) initialProducerState _ 2.5 rfl rfl⟩

/-- C5 counterexample: at the concrete pre-tick state (intensity 0.5,
gathering active, `updateCount` 7) with one open viewer and all randoms 0,
the tick advances the counter to 8 and does broadcast, but the message sent
contains the tick counter nowhere: no subvalue of the JSON object equals the
number 8, and there is no `updateCount` field — the fields are exactly
`type`, `data`, `timestamp`, `somnathIntensity` and `crowdCount`. -/
theorem C5_counterexample :
    (producerTick (fun _ => 0) "2025-01-01T00:00:00.000Z" [⟨0, 1⟩]
        ⟨.num 0.5, some (.bool true), 7⟩).1.updateCount = 8 ∧
    (producerTick (fun _ => 0) "2025-01-01T00:00:00.000Z" [⟨0, 1⟩]
        ⟨.num 0.5, some (.bool true), 7⟩).2 ≠ [] ∧
    ((producerTick (fun _ => 0) "2025-01-01T00:00:00.000Z" [⟨0, 1⟩]
        ⟨.num 0.5, some (.bool true), 7⟩).2.all
      (fun send => !jsonMentions (.num 8) send.2 &&
        decide (getField send.2 "updateCount" = none))) = true :=
  ⟨by decide, by decide, by decide⟩

/-- C5 (amended): on every producer tick with at least one connected viewer,
the broadcast message is tagged `heatmap_update` and carries the timestamp,
the post-tick intensity formatted to three decimals (`somnathIntensity`),
and the estimated integer crowd size `crowdCount = floor(intensity * 1000)`,
and it is sent exactly to the connections currently in the open state; the
tick counter is not part of the message. -/
theorem C5_broadcast_contents (r : ℕ → ℚ) (timestamp : String)
    (clients : List Client) (st : ProducerState) (hc : 0 < clients.length) :
    (producerTick r timestamp clients st).2 =
      (clients.filter (fun c => c.readyState == WS_OPEN)).map
        (fun c => (c.id, tickMessage r timestamp st)) ∧
    getField (tickMessage r timestamp st) "type" = some (.str "heatmap_update") ∧
    getField (tickMessage r timestamp st) "timestamp" = some (.str timestamp) ∧
    getField (tickMessage r timestamp st) "somnathIntensity" =
      some (.str (toFixed 3 (tickIntensity r st).somnathCrowdIntensity)) ∧
    getField (tickMessage r timestamp st) "crowdCount" =
      some (jsnumToJson (jsFloor
        (jsMul (tickIntensity r st).somnathCrowdIntensity (.num 1000)))) ∧
    getField (tickMessage r timestamp st) "updateCount" = none := by
  constructor
  · unfold producerTick
    rw [if_pos hc]
  · exact ⟨rfl, rfl, rfl, rfl, rfl⟩

/-- Witness for C5 (amended) at a concrete input: one open and one non-open
client. -/
theorem C5_broadcast_contents_witness :
    (producerTick (fun _ => 0) "t" [⟨0, 1⟩, ⟨1, 0⟩] initialProducerState).2 =
      (([⟨0, 1⟩, ⟨1, 0⟩] : List Client).filter (fun c => c.readyState == WS_OPEN)).map
        (fun c => (c.id, tickMessage (fun _ => 0) "t" initialProducerState)) :=
  (C5_broadcast_contents (fun _ => 0) "t" [⟨0, 1⟩, ⟨1, 0⟩] initialProducerState
    (by decide)).1

/-- C7: called with intensity 1.0 the cluster generator always returns the
exact centre point `(temple lat, temple lng, 1.0)` first, produces 20 points
in total — within the stated 5 to 20 inclusive — and each satellite point
carries `intensity * (0.7 + 0.3 * rand)` clamped to 1.0 at random offsets in
the ~1 km box; the whole list is given in closed form. -/
theorem C7_cluster_at_full_intensity (r : ℕ → ℚ) (base : ℕ) :
    generateSomnathHeatPoints r base (.num 1) =
      ⟨SOMNATH_TEMPLE.lat, SOMNATH_TEMPLE.lng, .num 1⟩ ::
        (List.range 19).map (fun i =>
          (⟨SOMNATH_TEMPLE.lat + (r (base + 3 * i) - 0.5) * 0.01,
            SOMNATH_TEMPLE.lng + (r (base + 3 * i + 1) - 0.5) * 0.01,
            jsMin (.num 1.0) (jsMul (.num 1)
              (.num (0.7 + r (base + 3 * i + 2) * 0.3)))⟩ : HeatPoint)) ∧
    (generateSomnathHeatPoints r base (.num 1)).length = 20 ∧
    5 ≤ (generateSomnathHeatPoints r base (.num 1)).length ∧
    (generateSomnathHeatPoints r base (.num 1)).length ≤ 20 ∧
    (⟨SOMNATH_TEMPLE.lat, SOMNATH_TEMPLE.lng, .num 1⟩ : HeatPoint)
      ∈ generateSomnathHeatPoints r base (.num 1) := by
  have hn : numSatellites (.num 1) = 19 := by decide
  have hgen := generateSomnathHeatPoints_eq r base (.num 1)
  rw [hn] at hgen
  refine ⟨?_, ?_, ?_, ?_, ?_⟩
  · rw [hgen]
    rfl
  · rw [hgen]
    simp
  · rw [hgen]
    simp
  · rw [hgen]
    simp
  · rw [hgen]
    exact List.mem_cons_self _ _

/-- C8: with the gathering flag falsy, the stored intensity is unchanged
across any number of consecutive ticks (no gradual advance and no spike),
and a handled message whose `type` is not `set_crowd_intensity` never
changes the stored intensity — only the manual override does. -/
theorem C8_inactive_intensity_frozen :
    (∀ (rs : ℕ → ℕ → ℚ) (ts : ℕ → String) (cls : ℕ → List Client)
        (n : ℕ) (st : ProducerState),
        truthy st.crowdGatheringActive = false →
        (runTicks rs ts cls n st).somnathCrowdIntensity = st.somnathCrowdIntensity) ∧
    (∀ (r : ℕ → ℚ) (st : ProducerState) (m : JsonVal),
        getField m "type" ≠ some (.str "set_crowd_intensity") →
        (producerOnMessage r st (some m)).1.somnathCrowdIntensity
          = st.somnathCrowdIntensity) := by
  constructor
  · intro rs ts cls n
    induction n with
    | zero => intro st h; rfl
    | succ n ih =>
      intro st h
      have hstep : (producerTick (rs n) (ts n) (cls n) st).1 = st := by
        rw [producerTick_fst]
        split
        · exact tickIntensity_inactive _ _ h
        · rfl
      show (runTicks rs ts cls n (producerTick (rs n) (ts n) (cls n) st).1).somnathCrowdIntensity
        = st.somnathCrowdIntensity
      rw [hstep]
      exact ih st h
  · intro r st m hne
    simp only [producerOnMessage]
    rw [if_neg hne]
    split <;> rfl

/-- Witness for C8: three idle ticks from a concrete inactive state, and a
`toggle_gathering` message, both leave the stored intensity at 0.5. -/
theorem C8_inactive_intensity_frozen_witness :
    (runTicks (fun _ _ => 0) (fun _ => "t") (fun _ => [Client.mk 0 1]) 3
        ⟨.num 0.5, some (.bool false), 0⟩).somnathCrowdIntensity = .num 0.5 ∧
    (producerOnMessage (fun _ => 0)
        ⟨.num 0.5, some (.bool false), 0⟩
        (some (.obj [("type", .str "toggle_gathering"),
                     ("active", .bool true)]))).1.somnathCrowdIntensity = .num 0.5 :=
  ⟨C8_inactive_intensity_frozen.1 (fun _ _ => 0) (fun _ => "t") (fun _ => [Client.mk 0 1]) 3
      ⟨.num 0.5, some (.bool false), 0⟩ rfl,
   C8_inactive_intensity_frozen.2 (fun _ => 0) ⟨.num 0.5, some (.bool false), 0⟩ _
      (by decide)⟩

/-- C9: a parseable `set_crowd_intensity` message whose `intensity` field is
missing is accepted by the handler, which stores
`Math.max(0, Math.min(1.0, undefined))`, i.e. NaN — so after this message
the stored intensity is not in `[0, 1]`. -/
theorem C9_nan_escapes_clamp :
    (producerOnMessage (fun _ => 0) initialProducerState
        (some (.obj [("type", .str "set_crowd_intensity")]))).1.somnathCrowdIntensity
      = JSNum.nan ∧
    inUnitInterval (producerOnMessage (fun _ => 0) initialProducerState
        (some (.obj [("type", .str "set_crowd_intensity")]))).1.somnathCrowdIntensity
      = false :=
  ⟨by decide, by decide⟩

/-- C10: an inbound `request_data` message whose `region` field is not
exactly the string "gujarat" produces no reply and leaves the producer state
untouched, and — over all parsed inbound messages — the handler sends a
reply if and only if the message's `type` is "request_data" and its `region`
is "gujarat" (and that reply is the single `full_update`). -/
theorem C10_request_data_region_gate :
    (∀ (r : ℕ → ℚ) (st : ProducerState) (m : JsonVal),
        getField m "type" = some (.str "request_data") →
        getField m "region" ≠ some (.str "gujarat") →
        producerOnMessage r st (some m) = (st, [])) ∧
    (∀ (r : ℕ → ℚ) (st : ProducerState) (m : JsonVal),
        (producerOnMessage r st (some m)).2 ≠ [] ↔
          (getField m "type" = some (.str "request_data") ∧
           getField m "region" = some (.str "gujarat"))) ∧
    (∀ (r : ℕ → ℚ) (st : ProducerState) (m : JsonVal),
        getField m "type" = some (.str "request_data") →
        getField m "region" = some (.str "gujarat") →
        (producerOnMessage r st (some m)).2 = [fullUpdateReply r st]) := by
  refine ⟨?_, ?_, ?_⟩
  · intro r st m hty hreg
    simp [producerOnMessage, hty, hreg]
  · intro r st m
    simp only [producerOnMessage]
    split
    · simp_all
    · simp_all
  · intro r st m hty hreg
    simp [producerOnMessage, hty, hreg]

/-- Witness for C10: a `request_data` for region "mumbai" is ignored, and
the same message with region "gujarat" is answered. -/
theorem C10_request_data_region_gate_witness :
    producerOnMessage (fun _ => 0) initialProducerState
        (some (.obj [("type", .str "request_data"), ("region", .str "mumbai")]))
      = (initialProducerState, []) ∧
    (producerOnMessage (fun _ => 0) initialProducerState
        (some (.obj [("type", .str "request_data"),
                     ("region", .str "gujarat")]))).2
      = [fullUpdateReply (fun _ => 0) initialProducerState] :=
  ⟨C10_request_data_region_gate.1 (fun _ => 0) initialProducerState _ rfl (by decide),
   C10_request_data_region_gate.2.2 (fun _ => 0) initialProducerState _ rfl rfl⟩

end Heatmap
